import Mathlib

/-!
Shallow embedding of `src/api_certificado.py` (FastAPI service that logs into
the NFS-e portal with an A1 certificate and aggregates invoice amounts from a
paginated HTML listing).

Modelling conventions:
* Python strings are Lean `String`s; the handful of `str`/`re` operations the
  program uses (`in`, `replace`, `strip`-like trimming inside `int()`/`float()`,
  the two regex searches) are embedded explicitly over `List Char`.
* Python `float` values are modelled as exact rationals `ℚ`; `float(text)`
  is modelled by `pyFloat`, covering the decimal/exponent literal grammar
  (underscored literals and `inf`/`nan` spellings, which cannot occur in the
  monetary texts this program parses, are not modelled and yield `none`).
* The network and the HTML parser (`requests`, `BeautifulSoup`) are opaque
  collaborators: a fetched page is a `Pagina` value recording exactly the
  queries the code performs on the soup, and the login HTTP call is a
  `RespostaLogin` value supplied by the environment.
* Exceptions are modelled with `Except String`, carrying `str(e)`.
* The temporary certificate material on disk is tracked as a `Bool`
  ("is temp material still present after this call returns").
-/

set_option maxRecDepth 2000

namespace ApiCertificado

/-! ### Python string primitives -/

/-- Characters matched by Python's `str.strip()` default / regex `\s`
(ASCII fragment; the program only meets ASCII whitespace here). -/
def isPySpace (c : Char) : Bool :=
  c = ' ' ∨ c = '\t' ∨ c = '\n' ∨ c = '\r' ∨ c = '\x0b' ∨ c = '\x0c'

/-- Strip leading and trailing whitespace (as `int()` / `float()` do). -/
def pyStripL (l : List Char) : List Char :=
  ((l.dropWhile isPySpace).reverse.dropWhile isPySpace).reverse

/-- Does `pat` start the list? (helper for substring search / replace). -/
def comecaCom : List Char → List Char → Bool
  | [], _ => true
  | _ :: _, [] => false
  | p :: ps, c :: cs => p = c && comecaCom ps cs

/-- Does `pat` occur somewhere in the list? -/
def contemL (pat : List Char) : List Char → Bool
  | [] => comecaCom pat []
  | c :: cs => comecaCom pat (c :: cs) || contemL pat cs

/-- Python's `needle in hay` on strings. -/
def pyIn (needle hay : String) : Bool :=
  contemL needle.data hay.data

/-- Python's `str.replace`: replace non-overlapping occurrences left to right.
(The program only calls it with the nonempty patterns `"."` and `","`.)
The first argument is fuel bounding the number of scanned positions; it is
structural only so the definition reduces definitionally, and `pyReplaceL`
supplies enough of it. -/
def pyReplaceFuel (pat rep : List Char) : Nat → List Char → List Char
  | _, [] => []
  | 0, l => l
  | fuel + 1, c :: cs =>
    if pat ≠ [] ∧ comecaCom pat (c :: cs) then
      rep ++ pyReplaceFuel pat rep fuel (List.drop (pat.length - 1) cs)
    else
      c :: pyReplaceFuel pat rep fuel cs

def pyReplaceL (pat rep : List Char) (l : List Char) : List Char :=
  pyReplaceFuel pat rep l.length l

/-- Python's `str.replace` on `String`. -/
def pyReplace (s pat rep : String) : String :=
  String.mk (pyReplaceL pat.data rep.data s.data)

/-- Digit run to a natural number. -/
def digitsToNat (ds : List Char) : Nat :=
  ds.foldl (fun a c => a * 10 + (c.toNat - 48)) 0

/-- Split off the maximal leading digit run. -/
def spanDigits : List Char → List Char × List Char
  | [] => ([], [])
  | c :: cs =>
    if c.isDigit then
      let r := spanDigits cs
      (c :: r.1, r.2)
    else ([], c :: cs)

/-- Optional leading sign. -/
def tiraSinal : List Char → Bool × List Char
  | '-' :: r => (true, r)
  | '+' :: r => (false, r)
  | r => (false, r)

/-- Python's `int(s)` (base 10): strip whitespace, optional sign, a nonempty
digit run and nothing else; `none` models the `ValueError`. -/
def pyInt (s : String) : Option Int :=
  let cs := pyStripL s.data
  let sg := tiraSinal cs
  let dr := spanDigits sg.2
  if dr.1 = [] ∨ dr.2 ≠ [] then none
  else some (if sg.1 then -(digitsToNat dr.1 : Int) else (digitsToNat dr.1 : Int))

/-- Integer-and-fraction part of a float literal: `123`, `123.`, `.5`, `12.5`;
returned as `(n, k, rest)` denoting the value `n / 10 ^ k` (the digits before
and after the point concatenated, and the number of fraction digits). -/
def parteMantissa (cs : List Char) : Option (Nat × Nat × List Char) :=
  let ip := spanDigits cs
  match ip.2 with
  | '.' :: r2 =>
    let fp := spanDigits r2
    if ip.1 = [] ∧ fp.1 = [] then none
    else some (digitsToNat (ip.1 ++ fp.1), fp.1.length, fp.2)
  | _ => if ip.1 = [] then none else some (digitsToNat ip.1, 0, ip.2)

/-- Optional exponent suffix `e±ddd` of a float literal; `some 0` when absent. -/
def parteExpoente : List Char → Option Int
  | [] => some 0
  | c :: resto =>
    if c = 'e' ∨ c = 'E' then
      let sg := tiraSinal resto
      let dr := spanDigits sg.2
      if dr.1 = [] ∨ dr.2 ≠ [] then none
      else some (if sg.1 then -(digitsToNat dr.1 : Int) else (digitsToNat dr.1 : Int))
    else none

/-- The syntactic decomposition `float(s)` accepts: sign, mantissa `n / 10^k`,
exponent `e`.  (Kept free of `ℚ` so it evaluates by `decide`.) -/
def pyFloatPartes (s : String) : Option (Bool × Nat × Nat × Int) :=
  let cs := pyStripL s.data
  let sg := tiraSinal cs
  match parteMantissa sg.2 with
  | none => none
  | some mr =>
    match parteExpoente mr.2.2 with
    | none => none
    | some e => some (sg.1, mr.1, mr.2.1, e)

/-- Python's `float(s)` for decimal literals, as an exact rational;
`none` models the `ValueError`. -/
def pyFloat (s : String) : Option ℚ :=
  (pyFloatPartes s).map fun p =>
    (if p.1 then -(p.2.1 : ℚ) else (p.2.1 : ℚ)) / (10 : ℚ) ^ p.2.2.1 * (10 : ℚ) ^ p.2.2.2

/-- Python's `str.zfill(2)` as used on `str(mes_int)` for `mes_int ∈ [1,12]`. -/
def zfill2 (s : String) : String :=
  if s.length ≥ 2 then s else "0" ++ s

/-- Python's `round(x, 2)` (banker's rounding), on the exact rational model. -/
def roundPy2 (x : ℚ) : ℚ :=
  let y := x * 100
  let n := ⌊y⌋
  let f := y - n
  let r : ℤ :=
    if f < 1/2 then n
    else if 1/2 < f then n + 1
    else if n % 2 = 0 then n else n + 1
  (r : ℚ) / 100

/-! ### HTML model

A `Linha` records the three queries `processar_pagina` performs on a `<tr>`:
the presence of the `tb-gerada.svg` status icon, and the stripped texts of the
`td-competencia` and `td-valor` cells (absent when `find` returns `None`).
A `Pagina` records the queries performed on a whole page soup. -/

structure Linha where
  img_gerada : Bool
  td_competencia : Option String
  td_valor : Option String
deriving DecidableEq

/-- The `div.paginacao` element: `link_proxima` is the `<a title='Próxima'>`
tag when present, carrying its `href` attribute (which itself may be absent,
in which case `get('href', '')` later supplies `""`). -/
structure Paginacao where
  link_proxima : Option (Option String)
deriving DecidableEq

structure Pagina where
  tbody : Option (List Linha)
  paginacao : Option Paginacao
deriving DecidableEq

/-! ### Regex searches -/

/-- Try the regex `(\d{2})/(\d{4})` at the head of the list. -/
def competenciaEm : List Char → Option (String × String)
  | d1 :: d2 :: '/' :: a1 :: a2 :: a3 :: a4 :: _ =>
    if d1.isDigit ∧ d2.isDigit ∧ a1.isDigit ∧ a2.isDigit ∧ a3.isDigit ∧ a4.isDigit then
      some (String.mk [d1, d2], String.mk [a1, a2, a3, a4])
    else none
  | _ => none

/-- `re.search(r'(\d{2})/(\d{4})', texto)`: leftmost match, as
`(mes_nota, ano_nota)`. -/
def buscar_competencia : List Char → Option (String × String)
  | [] => none
  | c :: cs =>
    match competenciaEm (c :: cs) with
    | some r => some r
    | none => buscar_competencia cs

/-- Try the regex `CNPJ:\s*(\d+)` at the head of the list. -/
def cnpjEm : List Char → Option (List Char)
  | 'C' :: 'N' :: 'P' :: 'J' :: ':' :: resto =>
    let dr := spanDigits (resto.dropWhile isPySpace)
    if dr.1 = [] then none else some dr.1
  | _ => none

/-- `re.search(r'CNPJ:\s*(\d+)', texto)`: leftmost match, digit run captured. -/
def buscar_cnpj : List Char → Option (List Char)
  | [] => none
  | c :: cs =>
    match cnpjEm (c :: cs) with
    | some r => some r
    | none => buscar_cnpj cs

/-! ### Row classification (`processar_pagina` loop body) -/

/-- `f"{c[:2]}.{c[2:5]}.{c[5:8]}/{c[8:12]}-{c[12:]}"` on the digit run. -/
def formatar_cnpj (ds : List Char) : String :=
  String.mk (ds.take 2) ++ "." ++ String.mk ((ds.drop 2).take 3) ++ "." ++
    String.mk ((ds.drop 5).take 3) ++ "/" ++ String.mk ((ds.drop 8).take 4) ++ "-" ++
    String.mk (ds.drop 12)

/-- CNPJ extraction from the `li.dropdown.perfil` text (lines 87–96):
formatted iff the captured digit run has exactly 14 digits, else left `None`. -/
def extrair_cnpj (perfil : Option String) : Option String :=
  match perfil with
  | none => none
  | some texto =>
    match buscar_cnpj texto.data with
    | none => none
    | some ds => if ds.length = 14 then some (formatar_cnpj ds) else none

/-- `valor_texto.replace('.', '').replace(',', '.')` followed by `float(...)`. -/
def converter_valor (valor_texto : String) : Option ℚ :=
  pyFloat (pyReplace (pyReplace valor_texto "." "") "," ".")

/-- What the loop body does with one row. -/
inductive AcaoLinha where
  | pular
  | parar
  | contar (v : ℚ)
deriving DecidableEq

/-- Lines 180–189: the `td-valor` lookup and amount parse of a row that passed
all filters; a missing cell or a `float` `ValueError` skips the row. -/
def valor_da_linha (l : Linha) : AcaoLinha :=
  match l.td_valor with
  | none => .pular
  | some vtxt =>
    match converter_valor vtxt with
    | none => .pular
    | some v => .contar v

/-- Truthiness-aware month filter test of line 177
(`if mes_filtro and mes_nota != mes_filtro`). -/
def mesDiscorda (mes_filtro : Option String) (mes_nota : String) : Bool :=
  match mes_filtro with
  | none => false
  | some m => m ≠ "" && mes_nota ≠ m

/-- One iteration of the `for linha in linhas` body (lines 152–191).  The whole
body runs under `try: ... except: continue`; the only failure points are the
`int` conversions and the `float` parse, and each failing point is modelled by
its `Option` returning `none`, which yields `.pular`. -/
def classificar_linha (ano_filtro : String) (mes_filtro : Option String) (l : Linha) : AcaoLinha :=
  if l.img_gerada = false then .pular
  else
    match l.td_competencia with
    | none => .pular
    | some txt =>
      match buscar_competencia txt.data with
      | none => .pular
      | some mn =>
        match pyInt mn.2, pyInt ano_filtro with
        | some a, some f =>
          if a < f then .parar
          else if f < a then .pular
          else if mesDiscorda mes_filtro mn.1 then .pular
          else valor_da_linha l
        | _, _ => .pular

/-- The row loop of `processar_pagina`: fold the classified rows, stopping at
the first `.parar` (the `break` of line 172) with `continuar = false`. -/
def processar_linhas (ano_filtro : String) (mes_filtro : Option String) :
    List Linha → ℚ × Nat × Bool
  | [] => (0, 0, true)
  | l :: ls =>
    match classificar_linha ano_filtro mes_filtro l with
    | .parar => (0, 0, false)
    | .pular => processar_linhas ano_filtro mes_filtro ls
    | .contar v =>
      let r := processar_linhas ano_filtro mes_filtro ls
      (v + r.1, r.2.1 + 1, r.2.2)

/-- Does the scan of the rows reach a `.parar` row (observer used to
characterise the returned `continuar` flag)? -/
def tem_parada (ano_filtro : String) (mes_filtro : Option String) : List Linha → Bool
  | [] => false
  | l :: ls =>
    match classificar_linha ano_filtro mes_filtro l with
    | .parar => true
    | _ => tem_parada ano_filtro mes_filtro ls

/-- `processar_pagina` (lines 138–193): returns
`(faturamento_pagina, notas_na_pagina, continuar)`. -/
def processar_pagina (soup : Pagina) (ano_filtro : String) (mes_filtro : Option String) :
    ℚ × Nat × Bool :=
  match soup.tbody with
  | none => (0, 0, false)
  | some [] => (0, 0, false)
  | some linhas => processar_linhas ano_filtro mes_filtro linhas

/-! ### Login with certificate (`fazer_login_certificado`, lines 33–124) -/

/-- The uniform authentication-failure message (lines 48, 84, 113, 124). -/
def mensagem_autenticacao : String :=
  "Autenticação não realizada. Favor inserir os dados corretamente de acesso"

/-- Outcome of `session.get(url, timeout=30)` on the certificate-login page:
an `SSLError`, some other `requests` exception (with its `str(e)`), or a
completed HTTP response.  A completed response carries its status code, the
names of the cookies now in the session's jar, and the text of the
`li.dropdown.perfil` element when the page has one. -/
inductive RespostaLogin where
  | ssl
  | excecao (msg : String)
  | ok (status : Nat) (cookies : List String) (perfil : Option String)
deriving DecidableEq

/-- Environment of one `fazer_login_certificado` call.
`decode_ok` is whether `base64.b64decode` + `pkcs12.load_key_and_certificates`
succeed (lines 36–48).  `escrita_ok` is whether serialising and writing the
certificate and key files (lines 51–75, outside every `try`) succeeds;
`False` models e.g. a bundle loaded with `private_key = None`, where
`private_key.private_bytes` raises `AttributeError` with text `escrita_msg`
after `tempfile.mkdtemp()` and both `open(...)` calls already created the
temporary material. -/
structure AmbienteLogin where
  decode_ok : Bool
  escrita_ok : Bool
  escrita_msg : String
  resposta : RespostaLogin

/-- `fazer_login_certificado`: returns (result, temp material still on disk).
The result is the `(session, cnpj)` pair — abstracted to the extracted CNPJ —
or the `str(e)` of the exception that escapes the function. -/
def fazer_login_certificado (env : AmbienteLogin) : Except String (Option String) × Bool :=
  if env.decode_ok = false then
    -- lines 47–48: decode/load failure, before any file is created
    (.error mensagem_autenticacao, false)
  else if env.escrita_ok = false then
    -- lines 51–75 run outside every try: the exception propagates as-is and
    -- no cleanup handler runs, so the temporary material stays on disk
    (.error env.escrita_msg, true)
  else
    match env.resposta with
    | .ssl =>
      -- lines 105–113: cleanup, then the uniform message
      (.error mensagem_autenticacao, false)
    | .excecao m =>
      -- lines 114–124: cleanup, re-raise if the message already carries the
      -- uniform phrase, else raise the uniform message
      (.error (if pyIn "Autenticação não realizada" m then m else mensagem_autenticacao), false)
    | .ok _ cookies perfil =>
      if "Emissor" ∈ cookies then
        -- lines 86–103: CNPJ extraction; paths kept on the session
        (.ok (extrair_cnpj perfil), true)
      else
        -- line 84 raises; caught at 114, cleaned up, re-raised (message
        -- contains the phrase)
        (.error mensagem_autenticacao, false)

/-! ### Pagination (`buscar_notas`, lines 195–228) -/

/-- Outcome of `session.get` on one listing page: a `requests` exception or a
completed response with its status code and parsed page. -/
inductive RespostaPagina where
  | excecao (msg : String)
  | ok (status : Nat) (pagina : Pagina)
deriving DecidableEq

/-- One iteration of the `while continuar` loop, at page `pg` with the
accumulators so far. -/
inductive Passo where
  | termina (fat : ℚ) (notas : Nat)
  | proxima (fat : ℚ) (notas : Nat)
  | falha (msg : String)
deriving DecidableEq

/-- Loop body of `buscar_notas` (lines 204–226):
fetch page `pg`; a non-200 status breaks with the current totals; otherwise
fold the page into the totals and break unless the parser says to continue,
a `div.paginacao` exists, it has an `<a title='Próxima'>`, and that link's
`href` (default `''`) is not a `javascript:` placeholder. -/
def buscar_passo (portal : Nat → RespostaPagina) (ano : String) (mes : Option String)
    (pg : Nat) (fat : ℚ) (notas : Nat) : Passo :=
  match portal pg with
  | .excecao m => .falha m
  | .ok status pagina =>
    if status ≠ 200 then .termina fat notas
    else
      let r := processar_pagina pagina ano mes
      let fat2 := fat + r.1
      let notas2 := notas + r.2.1
      if r.2.2 = false then .termina fat2 notas2
      else
        match pagina.paginacao with
        | none => .termina fat2 notas2
        | some tag =>
          match tag.link_proxima with
          | none => .termina fat2 notas2
          | some href =>
            if pyIn "javascript:" (href.getD "") then .termina fat2 notas2
            else .proxima fat2 notas2

/-- The `while continuar` loop, driven by fuel (the Python loop is unbounded;
`none` means the fuel ran out before the loop finished). -/
def buscar_loop (portal : Nat → RespostaPagina) (ano : String) (mes : Option String) :
    Nat → Nat → ℚ → Nat → Option (Except String (ℚ × Nat))
  | 0, _, _, _ => none
  | fuel + 1, pg, fat, notas =>
    match buscar_passo portal ano mes pg fat notas with
    | .falha m => some (.error m)
    | .termina f n => some (.ok (f, n))
    | .proxima f n => buscar_loop portal ano mes fuel (pg + 1) f n

/-- `buscar_notas(session, ano, mes)`: run the loop from page 1 with zeroed
accumulators. -/
def buscar_notas (portal : Nat → RespostaPagina) (ano : String) (mes : Option String)
    (fuel : Nat) : Option (Except String (ℚ × Nat)) :=
  buscar_loop portal ano mes fuel 1 0 0

/-- Ghost observer: the list of page numbers the loop fetches (in order). -/
def buscar_paginas (portal : Nat → RespostaPagina) (ano : String) (mes : Option String) :
    Nat → Nat → ℚ → Nat → List Nat
  | 0, _, _, _ => []
  | fuel + 1, pg, fat, notas =>
    match buscar_passo portal ano mes pg fat notas with
    | .proxima f n => pg :: buscar_paginas portal ano mes fuel (pg + 1) f n
    | _ => [pg]

/-! ### Endpoint (`obter_faturamento_certificado`, lines 238–292) -/

structure Requisicao where
  certificado_base64 : String
  senha_certificado : String
  ano : String
  mes : Option String

structure RespostaFaturamento where
  CNPJ : String
  Faturamento : ℚ
  Notas_Encontradas : Nat
  Periodo : String
  Mes : String
deriving DecidableEq

/-- Whole-request environment: the login call's outcome and the portal's
responses to the listing fetches. -/
structure Ambiente where
  login : AmbienteLogin
  portal : Nat → RespostaPagina

/-- Lines 252–257: month validation.  `if request.mes:` is Python truthiness,
so an empty string skips validation; `int(...)` raising `ValueError` and
`HTTPException(400, "Mês inválido")` both surface as exceptions whose `str`
is recorded (Starlette renders the latter as `"400: Mês inválido"`). -/
def validar_mes (mes : Option String) : Except String (Option String) :=
  match mes with
  | none => .ok none
  | some s =>
    if s = "" then .ok none
    else
      match pyInt s with
      | none => .error ("invalid literal for int() with base 10: '" ++ s ++ "'")
      | some n =>
        if n < 1 ∨ 12 < n then .error "400: Mês inválido"
        else .ok (some (zfill2 (toString n)))

/-- Lines 285–292: the generic handler.  Any exception whose `str` contains
the phrase becomes a 401 carrying it verbatim; anything else becomes a 500
with an `Erro: ` prefix. -/
def tratar_erro (msg : String) : Nat × String :=
  if pyIn "Autenticação não realizada" msg then (401, msg) else (500, "Erro: " ++ msg)

/-- Line 259. -/
def rotulo_periodo (mes_filtro : Option String) (ano : String) : String :=
  match mes_filtro with
  | some m => m ++ "/" ++ ano
  | none => ano

/-- Line 260. -/
def rotulo_mes (mes_filtro : Option String) : String :=
  match mes_filtro with
  | some m => m
  | none => "Ano todo"

/-- Lines 268–269: `if not cnpj: cnpj = "Não identificado"`. -/
def cnpj_ou_padrao (cnpj : Option String) : String :=
  match cnpj with
  | none => "Não identificado"
  | some c => c

/-- The endpoint.  Returns `none` when the pagination fuel runs out, else the
HTTP outcome — `Except (status, detail) response` — paired with whether the
temporary certificate material is still on disk after the request returns.
Cleanup (lines 275 and 287–288) only runs when `session` was assigned, i.e.
when `fazer_login_certificado` returned. -/
def obter_faturamento_certificado (env : Ambiente) (fuel : Nat) (req : Requisicao) :
    Option (Except (Nat × String) RespostaFaturamento × Bool) :=
  match validar_mes req.mes with
  | .error msg => some (.error (tratar_erro msg), false)
  | .ok mes_filtro =>
    match fazer_login_certificado env.login with
    | (.error msg, sobra) =>
      -- `session` is still None here, so the handler's cleanup is skipped
      -- and whatever the login call left on disk stays there
      some (.error (tratar_erro msg), sobra)
    | (.ok cnpjOpt, _) =>
      match buscar_notas env.portal req.ano mes_filtro fuel with
      | none => none
      | some (.error msg) =>
        -- exception during pagination: handler cleans the session's files
        some (.error (tratar_erro msg), false)
      | some (.ok r) =>
        some (.ok { CNPJ := cnpj_ou_padrao cnpjOpt,
                    Faturamento := roundPy2 r.1,
                    Notas_Encontradas := r.2,
                    Periodo := rotulo_periodo mes_filtro req.ano,
                    Mes := rotulo_mes mes_filtro }, false)

/-! ### Concrete fixtures (used by witnesses and counterexamples) -/

/-- A row that is skipped for lack of the issued-status icon. -/
def linha_sem_icone : Linha := ⟨false, none, none⟩

/-- An eligible row of an earlier year than the 2025 filter. -/
def linha_2024 : Linha := ⟨true, some "12/2024", some "1,00"⟩

/-- An eligible row of a later year than the 2025 filter. -/
def linha_2026 : Linha := ⟨true, some "01/2026", some "1,00"⟩

/-- An eligible 2025 row of month 03. -/
def linha_mes_03 : Linha := ⟨true, some "03/2025", some "1,00"⟩

/-- An eligible 2025 row whose amount parses to a negative value. -/
def linha_negativa : Linha := ⟨true, some "01/2025", some "-5,00"⟩

/-- A page holding only `linha_negativa`, with a live next-page link. -/
def pagina_negativa : Pagina :=
  ⟨some [linha_negativa], some ⟨some (some "/EmissorNacional/Notas/Emitidas?pg=2")⟩⟩

/-- A portal that always serves `pagina_negativa` with status 200. -/
def portal_negativo : Nat → RespostaPagina := fun _ => .ok 200 pagina_negativa

/-- A portal that always answers 404 with an empty page. -/
def portal_404 : Nat → RespostaPagina := fun _ => .ok 404 ⟨none, none⟩

/-- A login environment that authenticates but finds no profile element. -/
def login_sem_perfil : AmbienteLogin := ⟨true, true, "", .ok 200 ["Emissor"] none⟩

def requisicao_basica : Requisicao := ⟨"Y2VydA==", "senha", "2025", none⟩

/-! ### Helper lemmas -/

/-- A skipped row leaves the page fold unchanged. -/
theorem processar_linhas_pular (ano_filtro : String) (mes_filtro : Option String)
    (l : Linha) (ls : List Linha)
    (h : classificar_linha ano_filtro mes_filtro l = .pular) :
    processar_linhas ano_filtro mes_filtro (l :: ls) =
      processar_linhas ano_filtro mes_filtro ls := by
  simp [processar_linhas, h]

/-- A stopping row ends the page immediately with `continuar = false`,
regardless of the remaining rows. -/
theorem processar_linhas_parar (ano_filtro : String) (mes_filtro : Option String)
    (l : Linha) (ls : List Linha)
    (h : classificar_linha ano_filtro mes_filtro l = .parar) :
    processar_linhas ano_filtro mes_filtro (l :: ls) = (0, 0, false) := by
  simp [processar_linhas, h]

/-- A counted row adds its value and bumps the count. -/
theorem processar_linhas_contar (ano_filtro : String) (mes_filtro : Option String)
    (l : Linha) (ls : List Linha) (v : ℚ)
    (h : classificar_linha ano_filtro mes_filtro l = .contar v) :
    processar_linhas ano_filtro mes_filtro (l :: ls) =
      (v + (processar_linhas ano_filtro mes_filtro ls).1,
       (processar_linhas ano_filtro mes_filtro ls).2.1 + 1,
       (processar_linhas ano_filtro mes_filtro ls).2.2) := by
  simp [processar_linhas, h]

/-- Unfolding of the row classifier once the competency is extracted. -/
theorem classificar_linha_eq (ano_filtro : String) (mes_filtro : Option String)
    (l : Linha) (txt mn an : String) (a f : Int)
    (himg : l.img_gerada = true)
    (hcomp : l.td_competencia = some txt)
    (hmatch : buscar_competencia txt.data = some (mn, an))
    (ha : pyInt an = some a) (hf : pyInt ano_filtro = some f) :
    classificar_linha ano_filtro mes_filtro l =
      if a < f then .parar
      else if f < a then .pular
      else if mesDiscorda mes_filtro mn then .pular
      else valor_da_linha l := by
  simp [classificar_linha, himg, hcomp, hmatch, ha, hf]

/-- `valor_da_linha` never stops the scan. -/
theorem valor_da_linha_ne_parar (l : Linha) : valor_da_linha l ≠ .parar := by
  unfold valor_da_linha
  cases l.td_valor with
  | none => simp
  | some vtxt => rcases h : converter_valor vtxt with _ | v <;> simp [h]

/-- The returned `continuar` flag is false exactly when the scan reached a
stopping row. -/
theorem continuar_eq_tem_parada (ano_filtro : String) (mes_filtro : Option String)
    (linhas : List Linha) :
    (processar_linhas ano_filtro mes_filtro linhas).2.2 =
      !tem_parada ano_filtro mes_filtro linhas := by
  induction linhas with
  | nil => simp [processar_linhas, tem_parada]
  | cons l ls ih =>
    unfold processar_linhas tem_parada
    cases classificar_linha ano_filtro mes_filtro l <;> simp [ih]

/-- A page whose rows are all skipped contributes nothing and continues. -/
theorem processar_linhas_tudo_pulado (ano_filtro : String) (mes_filtro : Option String)
    (linhas : List Linha)
    (h : ∀ l ∈ linhas, classificar_linha ano_filtro mes_filtro l = .pular) :
    processar_linhas ano_filtro mes_filtro linhas = (0, 0, true) := by
  induction linhas with
  | nil => simp [processar_linhas]
  | cons l ls ih =>
    rw [processar_linhas_pular ano_filtro mes_filtro l ls (h l (by simp))]
    exact ih fun x hx => h x (by simp [hx])

/-- Evaluation rule for `pyFloat` from its `ℚ`-free decomposition. -/
theorem pyFloat_de_partes (s : String) (neg : Bool) (n k : Nat) (e : Int)
    (h : pyFloatPartes s = some (neg, n, k, e)) :
    pyFloat s =
      some ((if neg then -(n : ℚ) else (n : ℚ)) / (10 : ℚ) ^ k * (10 : ℚ) ^ e) := by
  simp [pyFloat, h]

/-- Evaluation rule for `converter_valor` once the separator swap is done. -/
theorem converter_valor_eq (s t : String)
    (h : pyReplace (pyReplace s "." "") "," "." = t) :
    converter_valor s = pyFloat t := by
  rw [converter_valor, h]

/-! ### Claims -/

/-- C1: whenever the certificate-login HTTP request completes (any status,
including 200) but the `Emissor` cookie is absent from the session's jar,
`fazer_login_certificado` raises the uniform authentication-failure message
(and its cleanup ran), instead of returning a session or surfacing an
HTTP/network error. -/
theorem cookie_ausente_gera_falha_autenticacao (env : AmbienteLogin) (status : Nat)
    (cookies : List String) (perfil : Option String)
    (hdec : env.decode_ok = true) (hesc : env.escrita_ok = true)
    (hresp : env.resposta = .ok status cookies perfil)
    (hcookie : "Emissor" ∉ cookies) :
    fazer_login_certificado env = (.error mensagem_autenticacao, false) := by
  simp [fazer_login_certificado, hdec, hesc, hresp, hcookie]

theorem cookie_ausente_gera_falha_autenticacao_witness :
    fazer_login_certificado ⟨true, true, "", .ok 200 ["outro"] none⟩ =
      (.error mensagem_autenticacao, false) :=
  cookie_ausente_gera_falha_autenticacao ⟨true, true, "", .ok 200 ["outro"] none⟩
    200 ["outro"] none rfl rfl rfl (by decide)

/-- C2: for an eligible row (issued icon present, competency `MM/YYYY`
extracted) with competency year `a` against filter year `f`:
if `a < f` the scan stops at once with `continuar = false`, dropping every
remaining row of the page; if `a > f` only this row is skipped and the scan
continues; if `a = f` but a set month filter differs from the row's month,
only this row is skipped and the scan continues. -/
theorem filtragem_de_linhas_por_ano_mes (ano_filtro : String) (mes_filtro : Option String)
    (l : Linha) (txt mn an : String) (a f : Int)
    (himg : l.img_gerada = true)
    (hcomp : l.td_competencia = some txt)
    (hmatch : buscar_competencia txt.data = some (mn, an))
    (ha : pyInt an = some a) (hf : pyInt ano_filtro = some f) :
    (a < f → ∀ ls, processar_linhas ano_filtro mes_filtro (l :: ls) = (0, 0, false)) ∧
    (f < a → ∀ ls, processar_linhas ano_filtro mes_filtro (l :: ls) =
        processar_linhas ano_filtro mes_filtro ls) ∧
    (∀ m, a = f → mes_filtro = some m → m ≠ "" → mn ≠ m →
      ∀ ls, processar_linhas ano_filtro mes_filtro (l :: ls) =
        processar_linhas ano_filtro mes_filtro ls) := by
  have hc := classificar_linha_eq ano_filtro mes_filtro l txt mn an a f
    himg hcomp hmatch ha hf
  refine ⟨fun hlt ls => ?_, fun hgt ls => ?_, fun m heq hm hne hdif ls => ?_⟩
  · exact processar_linhas_parar _ _ _ _ (by rw [hc, if_pos hlt])
  · refine processar_linhas_pular _ _ _ _ ?_
    rw [hc, if_neg (by omega), if_pos hgt]
  · refine processar_linhas_pular _ _ _ _ ?_
    rw [hc, if_neg (by omega), if_neg (by omega), if_pos ?_]
    simp [mesDiscorda, hm, hne, hdif]

theorem filtragem_de_linhas_por_ano_mes_witness :
    processar_linhas "2025" (some "05") [linha_2024, linha_mes_03] = (0, 0, false) ∧
    processar_linhas "2025" (some "05") [linha_2026] =
      processar_linhas "2025" (some "05") [] ∧
    processar_linhas "2025" (some "05") [linha_mes_03] =
      processar_linhas "2025" (some "05") [] := by
  refine ⟨(filtragem_de_linhas_por_ano_mes "2025" (some "05") linha_2024
      "12/2024" "12" "2024" 2024 2025 rfl rfl (by decide) (by decide) (by decide)).1
      (by decide) _,
    (filtragem_de_linhas_por_ano_mes "2025" (some "05") linha_2026
      "01/2026" "01" "2026" 2026 2025 rfl rfl (by decide) (by decide) (by decide)).2.1
      (by decide) _,
    (filtragem_de_linhas_por_ano_mes "2025" (some "05") linha_mes_03
      "03/2025" "03" "2025" 2025 2025 rfl rfl (by decide) (by decide) (by decide)).2.2
      "05" rfl rfl (by decide) (by decide) _⟩

/-- C3: the monetary text is converted by removing every `.` and replacing
`,` with `.` (so `"1.234,56" ↦ 1234.56`, `"0,00" ↦ 0`, `"12,5" ↦ 12.5`); a
converted value is added to the page total with the count incremented, while
a text that does not parse after the swap only skips that row, the scan of
the rest of the page continuing. -/
theorem conversao_monetaria (ano_filtro : String) (mes_filtro : Option String) (l : Linha) :
    converter_valor "1.234,56" = some (1234.56 : ℚ) ∧
    converter_valor "0,00" = some 0 ∧
    converter_valor "12,5" = some (12.5 : ℚ) ∧
    (∀ txt, l.td_valor = some txt → converter_valor txt = none →
      valor_da_linha l = .pular) ∧
    (∀ txt v, l.td_valor = some txt → converter_valor txt = some v →
      valor_da_linha l = .contar v) ∧
    (∀ ls, classificar_linha ano_filtro mes_filtro l = .pular →
      processar_linhas ano_filtro mes_filtro (l :: ls) =
        processar_linhas ano_filtro mes_filtro ls) ∧
    (∀ ls v, classificar_linha ano_filtro mes_filtro l = .contar v →
      processar_linhas ano_filtro mes_filtro (l :: ls) =
        (v + (processar_linhas ano_filtro mes_filtro ls).1,
         (processar_linhas ano_filtro mes_filtro ls).2.1 + 1,
         (processar_linhas ano_filtro mes_filtro ls).2.2)) := by
  refine ⟨?_, ?_, ?_,
    fun txt ht hc => by simp [valor_da_linha, ht, hc],
    fun txt v ht hc => by simp [valor_da_linha, ht, hc],
    fun ls h => processar_linhas_pular _ _ _ _ h,
    fun ls v h => processar_linhas_contar _ _ _ _ _ h⟩
  · rw [converter_valor_eq "1.234,56" "1234.56" (by decide),
      pyFloat_de_partes "1234.56" false 123456 2 0 (by decide)]
    norm_num
  · rw [converter_valor_eq "0,00" "0.00" (by decide),
      pyFloat_de_partes "0.00" false 0 2 0 (by decide)]
    norm_num
  · rw [converter_valor_eq "12,5" "12.5" (by decide),
      pyFloat_de_partes "12.5" false 125 1 0 (by decide)]
    norm_num

theorem conversao_monetaria_witness :
    valor_da_linha ⟨true, some "05/2025", some "1.234,56"⟩ = .contar (1234.56 : ℚ) ∧
    valor_da_linha ⟨true, some "05/2025", some "12,34,56"⟩ = .pular :=
  ⟨(conversao_monetaria "2025" none ⟨true, some "05/2025", some "1.234,56"⟩).2.2.2.2.1
      "1.234,56" (1234.56 : ℚ) rfl
      (conversao_monetaria "2025" none ⟨true, some "05/2025", some "1.234,56"⟩).1,
   (conversao_monetaria "2025" none ⟨true, some "05/2025", some "12,34,56"⟩).2.2.2.1
      "12,34,56" rfl (by decide)⟩

/-- C9: a nonempty page whose rows are all skipped (missing icon, missing
cells, no `MM/YYYY` match, later year, or month mismatch) returns zero
amount, zero count and `continuar = true`, so pagination proceeds; and the
returned flag is false exactly when the table body is absent, has no rows,
or the scan reached a stopping row — and a row stops the scan exactly when
it is eligible with competency year strictly below the filter year. -/
theorem pagina_pulada_continua (ano_filtro : String) (mes_filtro : Option String) :
    (∀ linhas pagn, linhas ≠ [] →
      (∀ l ∈ linhas, classificar_linha ano_filtro mes_filtro l = .pular) →
      processar_pagina ⟨some linhas, pagn⟩ ano_filtro mes_filtro = (0, 0, true)) ∧
    (∀ p : Pagina, (processar_pagina p ano_filtro mes_filtro).2.2 = false ↔
      (p.tbody = none ∨ p.tbody = some [] ∨
        ∃ linhas, p.tbody = some linhas ∧
          tem_parada ano_filtro mes_filtro linhas = true)) ∧
    (∀ l : Linha, classificar_linha ano_filtro mes_filtro l = .parar ↔
      (l.img_gerada = true ∧ ∃ txt mn an a f,
        l.td_competencia = some txt ∧
        buscar_competencia txt.data = some (mn, an) ∧
        pyInt an = some a ∧ pyInt ano_filtro = some f ∧ a < f)) := by
  refine ⟨?_, ?_, ?_⟩
  · intro linhas pagn hne h
    cases linhas with
    | nil => exact absurd rfl hne
    | cons l ls =>
      show processar_linhas ano_filtro mes_filtro (l :: ls) = (0, 0, true)
      exact processar_linhas_tudo_pulado _ _ _ h
  · intro p
    rcases p with ⟨tb, pagn⟩
    cases tb with
    | none => simp [processar_pagina]
    | some linhas =>
      cases linhas with
      | nil => simp [processar_pagina, tem_parada]
      | cons l ls =>
        show (processar_linhas ano_filtro mes_filtro (l :: ls)).2.2 = false ↔ _
        rw [continuar_eq_tem_parada]
        cases htp : tem_parada ano_filtro mes_filtro (l :: ls) <;> simp [htp]
  · intro l
    constructor
    · intro h
      obtain ⟨g, comp, val⟩ := l
      cases g with
      | false => simp [classificar_linha] at h
      | true =>
        refine ⟨rfl, ?_⟩
        cases comp with
        | none => simp [classificar_linha] at h
        | some txt =>
          rcases hmatch : buscar_competencia txt.data with _ | ⟨mn, an⟩
          · simp [classificar_linha, hmatch] at h
          · rcases ha : pyInt an with _ | a
            · simp [classificar_linha, hmatch, ha] at h
            · rcases hf : pyInt ano_filtro with _ | f
              · simp [classificar_linha, hmatch, ha, hf] at h
              · refine ⟨txt, mn, an, a, f, rfl, hmatch, ha, rfl, ?_⟩
                by_contra hge
                rw [classificar_linha_eq ano_filtro mes_filtro _ txt mn an a f
                  rfl rfl hmatch ha hf, if_neg hge] at h
                by_cases hgt : f < a
                · rw [if_pos hgt] at h; exact absurd h (by simp)
                · rw [if_neg hgt] at h
                  by_cases hm : mesDiscorda mes_filtro mn = true
                  · rw [if_pos hm] at h; exact absurd h (by simp)
                  · rw [if_neg hm] at h
                    exact valor_da_linha_ne_parar _ h
    · rintro ⟨himg, txt, mn, an, a, f, hcomp, hmatch, ha, hf, hlt⟩
      rw [classificar_linha_eq ano_filtro mes_filtro l txt mn an a f
        himg hcomp hmatch ha hf, if_pos hlt]

theorem pagina_pulada_continua_witness :
    processar_pagina ⟨some [linha_sem_icone, linha_2026], none⟩ "2025" none =
      (0, 0, true) :=
  (pagina_pulada_continua "2025" none).1 [linha_sem_icone, linha_2026] none
    (by decide)
    (by
      intro l hl
      simp only [List.mem_cons, List.not_mem_nil, or_false] at hl
      rcases hl with rfl | rfl <;> decide)

/-! ### Pagination helper lemmas -/

/-- Unfolding of the loop body once the fetch completed. -/
theorem buscar_passo_ok (portal : Nat → RespostaPagina) (ano : String) (mes : Option String)
    (pg : Nat) (fat : ℚ) (notas : Nat) (s : Nat) (p : Pagina)
    (hp : portal pg = .ok s p) :
    buscar_passo portal ano mes pg fat notas =
      (if s ≠ 200 then .termina fat notas
       else
        if (processar_pagina p ano mes).2.2 = false then
          .termina (fat + (processar_pagina p ano mes).1)
            (notas + (processar_pagina p ano mes).2.1)
        else
          match p.paginacao with
          | none => .termina (fat + (processar_pagina p ano mes).1)
              (notas + (processar_pagina p ano mes).2.1)
          | some tag =>
            match tag.link_proxima with
            | none => .termina (fat + (processar_pagina p ano mes).1)
                (notas + (processar_pagina p ano mes).2.1)
            | some href =>
              if pyIn "javascript:" (href.getD "") then
                .termina (fat + (processar_pagina p ano mes).1)
                  (notas + (processar_pagina p ano mes).2.1)
              else
                .proxima (fat + (processar_pagina p ano mes).1)
                  (notas + (processar_pagina p ano mes).2.1)) := by
  unfold buscar_passo
  rw [hp]

/-- Every loop iteration either aborts, breaks with the totals unchanged, or
folds the fetched page into the totals (breaking or continuing). -/
theorem passo_casos (portal : Nat → RespostaPagina) (ano : String) (mes : Option String)
    (pg : Nat) (fat : ℚ) (notas : Nat) :
    (∃ m, buscar_passo portal ano mes pg fat notas = .falha m) ∨
    buscar_passo portal ano mes pg fat notas = .termina fat notas ∨
    (∃ s p, portal pg = .ok s p ∧
      (buscar_passo portal ano mes pg fat notas =
          .termina (fat + (processar_pagina p ano mes).1)
            (notas + (processar_pagina p ano mes).2.1) ∨
       buscar_passo portal ano mes pg fat notas =
          .proxima (fat + (processar_pagina p ano mes).1)
            (notas + (processar_pagina p ano mes).2.1))) := by
  rcases hp : portal pg with m | ⟨s, p⟩
  · exact Or.inl ⟨m, by unfold buscar_passo; rw [hp]⟩
  · rw [buscar_passo_ok portal ano mes pg fat notas s p hp]
    by_cases hs : s ≠ 200
    · rw [if_pos hs]; exact Or.inr (Or.inl rfl)
    · rw [if_neg hs]
      by_cases hc : (processar_pagina p ano mes).2.2 = false
      · rw [if_pos hc]; exact Or.inr (Or.inr ⟨s, p, rfl, Or.inl rfl⟩)
      · rw [if_neg hc]
        rcases hpag : p.paginacao with _ | tag
        · exact Or.inr (Or.inr ⟨s, p, rfl, Or.inl rfl⟩)
        · rcases hlink : tag.link_proxima with _ | href
          · exact Or.inr (Or.inr ⟨s, p, rfl, Or.inl (by simp [hlink])⟩)
          · by_cases hjs : pyIn "javascript:" (href.getD "") = true
            · exact Or.inr (Or.inr ⟨s, p, rfl, Or.inl (by simp [hlink, hjs])⟩)
            · exact Or.inr (Or.inr ⟨s, p, rfl, Or.inr (by simp [hlink, hjs])⟩)

/-- Per-iteration monotonicity: the count never decreases, and the amount
never decreases as long as every fetched page contributes a non-negative
amount. -/
theorem passo_monotono (portal : Nat → RespostaPagina) (ano : String) (mes : Option String)
    (pg : Nat) (fat : ℚ) (notas : Nat) (f : ℚ) (n : Nat)
    (h : buscar_passo portal ano mes pg fat notas = .termina f n ∨
         buscar_passo portal ano mes pg fat notas = .proxima f n) :
    notas ≤ n ∧
    ((∀ q s p, portal q = .ok s p → 0 ≤ (processar_pagina p ano mes).1) → fat ≤ f) := by
  rcases passo_casos portal ano mes pg fat notas with ⟨m, hm⟩ | hmid | ⟨s, p, hp, hok | hprox⟩
  · rcases h with h | h <;> rw [hm] at h <;> simp at h
  · rcases h with h | h <;> rw [hmid] at h
    · obtain ⟨hf, hn⟩ : fat = f ∧ notas = n := by simpa using h
      subst hf; subst hn
      exact ⟨le_refl _, fun _ => le_refl _⟩
    · simp at h
  · rcases h with h | h
    · rw [hok] at h
      obtain ⟨hf, hn⟩ :
          fat + (processar_pagina p ano mes).1 = f ∧
            notas + (processar_pagina p ano mes).2.1 = n := by simpa using h
      subst hf; subst hn
      refine ⟨Nat.le_add_right _ _, fun hpos => ?_⟩
      have := hpos pg s p hp
      linarith
    · rw [hok] at h; simp at h
  · rcases h with h | h
    · rw [hprox] at h; simp at h
    · rw [hprox] at h
      obtain ⟨hf, hn⟩ :
          fat + (processar_pagina p ano mes).1 = f ∧
            notas + (processar_pagina p ano mes).2.1 = n := by simpa using h
      subst hf; subst hn
      refine ⟨Nat.le_add_right _ _, fun hpos => ?_⟩
      have := hpos pg s p hp
      linarith

/-- The fetched pages always form a contiguous run `pg, pg+1, …`. -/
theorem buscar_paginas_range (portal : Nat → RespostaPagina) (ano : String)
    (mes : Option String) :
    ∀ fuel pg fat notas, ∃ k,
      buscar_paginas portal ano mes fuel pg fat notas = List.range' pg k := by
  intro fuel
  induction fuel with
  | zero => exact fun pg fat notas => ⟨0, rfl⟩
  | succ fuel ih =>
    intro pg fat notas
    rcases hstep : buscar_passo portal ano mes pg fat notas with ⟨f, n⟩ | ⟨f, n⟩ | m
    · exact ⟨1, by simp [buscar_paginas, hstep]⟩
    · obtain ⟨k, hk⟩ := ih (pg + 1) f n
      exact ⟨k + 1, by simp [buscar_paginas, hstep, hk, List.range'_succ]⟩
    · exact ⟨1, by simp [buscar_paginas, hstep]⟩

/-! ### Remaining claims -/

/-- C4: one loop iteration of `buscar_notas` breaks (fetches no further page)
exactly when the fetch completed and either the status is not 200, or the
parser said continue=false, or the page has no pagination navigation (no
`div.paginacao`, or no next-link inside it), or the next link's href is a
`javascript:` placeholder; a page with an absent or empty table body parses
to zero amount, zero count and continue=false; and a breaking iteration makes
the whole loop return its totals at once. -/
theorem condicoes_de_termino_da_paginacao (portal : Nat → RespostaPagina) (ano : String)
    (mes : Option String) (pg : Nat) (fat : ℚ) (notas : Nat) :
    ((∃ f n, buscar_passo portal ano mes pg fat notas = .termina f n) ↔
      ∃ s p, portal pg = .ok s p ∧
        (s ≠ 200 ∨ (processar_pagina p ano mes).2.2 = false ∨
         p.paginacao = none ∨
         (∃ tag, p.paginacao = some tag ∧ tag.link_proxima = none) ∨
         (∃ tag href, p.paginacao = some tag ∧ tag.link_proxima = some href ∧
            pyIn "javascript:" (href.getD "") = true))) ∧
    (∀ p : Pagina, p.tbody = none ∨ p.tbody = some [] →
        processar_pagina p ano mes = (0, 0, false)) ∧
    (∀ f n fuel, buscar_passo portal ano mes pg fat notas = .termina f n →
        buscar_loop portal ano mes (fuel + 1) pg fat notas = some (.ok (f, n))) := by
  refine ⟨⟨?_, ?_⟩, ?_, ?_⟩
  · rintro ⟨f, n, hdone⟩
    rcases hp : portal pg with m | ⟨s, p⟩
    · unfold buscar_passo at hdone; rw [hp] at hdone; simp at hdone
    · refine ⟨s, p, rfl, ?_⟩
      by_contra hnone
      push_neg at hnone
      obtain ⟨hs, hc, hpag, hlink, hjs⟩ := hnone
      rcases hpagx : p.paginacao with _ | tag
      · exact hpag hpagx
      · rcases hlinkx : tag.link_proxima with _ | href
        · exact hlink tag hpagx hlinkx
        · have hjsx : pyIn "javascript:" (href.getD "") = false := by
            simpa using hjs tag href hpagx hlinkx
          have hcx : (processar_pagina p ano mes).2.2 = true := by
            simpa using hc
          have hstep : buscar_passo portal ano mes pg fat notas =
              .proxima (fat + (processar_pagina p ano mes).1)
                (notas + (processar_pagina p ano mes).2.1) := by
            rw [buscar_passo_ok portal ano mes pg fat notas s p hp]
            simp [hs, hcx, hpagx, hlinkx, hjsx]
          rw [hstep] at hdone
          simp at hdone
  · rintro ⟨s, p, hp, hcond⟩
    rw [buscar_passo_ok portal ano mes pg fat notas s p hp]
    by_cases hs : s = 200
    · rw [if_neg (by simp [hs])]
      by_cases hc : (processar_pagina p ano mes).2.2 = false
      · rw [if_pos hc]; exact ⟨_, _, rfl⟩
      · rw [if_neg hc]
        rcases hcond with h | h | h | ⟨tag, htag, hlink⟩ | ⟨tag, href, htag, hlink, hjs⟩
        · exact absurd hs h
        · exact absurd h hc
        · rw [h]; exact ⟨_, _, rfl⟩
        · exact ⟨fat + (processar_pagina p ano mes).1,
            notas + (processar_pagina p ano mes).2.1, by simp [htag, hlink]⟩
        · exact ⟨fat + (processar_pagina p ano mes).1,
            notas + (processar_pagina p ano mes).2.1, by simp [htag, hlink, hjs]⟩
    · rw [if_pos hs]; exact ⟨_, _, rfl⟩
  · intro p hp
    rcases p with ⟨tb, pagn⟩
    rcases hp with h | h
    · rw [show tb = none from h]; rfl
    · rw [show tb = some [] from h]; rfl
  · intro f n fuel h
    simp [buscar_loop, h]

theorem condicoes_de_termino_da_paginacao_witness :
    processar_pagina ⟨none, none⟩ "2025" none = (0, 0, false) :=
  (condicoes_de_termino_da_paginacao portal_404 "2025" none 1 0 0).2.1
    ⟨none, none⟩ (Or.inl rfl)

/-- A portal whose page 1 carries a negative-amount row and a live next link,
and whose further pages answer 404. -/
def portal_misto : Nat → RespostaPagina := fun pg =>
  if pg = 1 then .ok 200 pagina_negativa else .ok 404 ⟨none, none⟩

/-- C6 (counterexample): with a parseable negative monetary text (`"-5,00"`),
one loop iteration takes the accumulated amount from `0` down to `-5`, and
the finished run returns total `-5 < 0`: the accumulated amount is not
monotonically non-decreasing as stated. -/
theorem agregacao_nao_monotona_contraexemplo :
    buscar_passo portal_misto "2025" none 1 0 0 = .proxima (-5) 1 ∧
    buscar_notas portal_misto "2025" none 2 = some (.ok (-5, 1)) ∧
    ((-5 : ℚ) < 0) := by
  have hconv : converter_valor "-5,00" = some (-5 : ℚ) := by
    rw [converter_valor_eq "-5,00" "-5.00" (by decide),
      pyFloat_de_partes "-5.00" true 500 2 0 (by decide)]
    norm_num
  have hrow : classificar_linha "2025" none linha_negativa = .contar (-5 : ℚ) := by
    rw [classificar_linha_eq "2025" none linha_negativa "01/2025" "01" "2025" 2025 2025
      rfl rfl (by decide) (by decide) (by decide)]
    rw [if_neg (by omega), if_neg (by omega), if_neg (by decide)]
    simp [valor_da_linha, linha_negativa, hconv]
  have hpag : processar_pagina pagina_negativa "2025" none = (-5, 1, true) := by
    show processar_linhas "2025" none [linha_negativa] = (-5, 1, true)
    rw [processar_linhas_contar "2025" none linha_negativa [] (-5) hrow]
    norm_num [processar_linhas]
  have hjs : pyIn "javascript:" "/EmissorNacional/Notas/Emitidas?pg=2" = false := by
    decide
  have hstep1 : buscar_passo portal_misto "2025" none 1 0 0 = .proxima (-5) 1 := by
    rw [buscar_passo_ok portal_misto "2025" none 1 0 0 200 pagina_negativa rfl]
    rw [if_neg (by simp), hpag]
    simp [pagina_negativa, hjs]
  have hstep2 : buscar_passo portal_misto "2025" none 2 (-5) 1 = .termina (-5) 1 := by
    rw [buscar_passo_ok portal_misto "2025" none 2 (-5) 1 404 ⟨none, none⟩ rfl]
    rw [if_pos (by norm_num)]
  refine ⟨hstep1, ?_, by norm_num⟩
  show buscar_loop portal_misto "2025" none 2 1 0 0 = some (.ok (-5, 1))
  rw [show (2 : Nat) = 1 + 1 from rfl]
  unfold buscar_loop
  rw [hstep1]
  unfold buscar_loop
  rw [hstep2]

/-- C6 (amended): throughout one run of `buscar_notas` the matched count is
monotonically non-decreasing, and the accumulated amount is monotonically
non-decreasing provided every fetched page contributes a non-negative parsed
amount (which the code does not enforce: a parseable negative monetary text
lowers the total); the fetched page numbers form a contiguous increasing run,
so no page is fetched twice; and once an iteration breaks, the loop returns
at once, fetching nothing further. -/
theorem invariantes_agregacao (portal : Nat → RespostaPagina) (ano : String)
    (mes : Option String) :
    (∀ fuel pg fat notas F N,
        buscar_loop portal ano mes fuel pg fat notas = some (.ok (F, N)) → notas ≤ N) ∧
    ((∀ q s p, portal q = .ok s p → 0 ≤ (processar_pagina p ano mes).1) →
      ∀ fuel pg fat notas F N,
        buscar_loop portal ano mes fuel pg fat notas = some (.ok (F, N)) → fat ≤ F) ∧
    (∀ fuel pg fat notas, ∃ k,
        buscar_paginas portal ano mes fuel pg fat notas = List.range' pg k) ∧
    (∀ fuel pg fat notas,
        (buscar_paginas portal ano mes fuel pg fat notas).Nodup) ∧
    (∀ f n fuel pg fat notas,
        buscar_passo portal ano mes pg fat notas = .termina f n →
        buscar_loop portal ano mes (fuel + 1) pg fat notas = some (.ok (f, n)) ∧
        buscar_paginas portal ano mes (fuel + 1) pg fat notas = [pg]) := by
  refine ⟨?_, ?_, buscar_paginas_range portal ano mes, ?_, ?_⟩
  · intro fuel
    induction fuel with
    | zero => intro pg fat notas F N h; simp [buscar_loop] at h
    | succ fuel ih =>
      intro pg fat notas F N h
      rcases hstep : buscar_passo portal ano mes pg fat notas with ⟨f, n⟩ | ⟨f, n⟩ | m
      · unfold buscar_loop at h; rw [hstep] at h
        obtain ⟨hF, hN⟩ : f = F ∧ n = N := by simpa using h
        exact hN ▸ (passo_monotono portal ano mes pg fat notas f n (Or.inl hstep)).1
      · unfold buscar_loop at h; rw [hstep] at h
        have h1 := (passo_monotono portal ano mes pg fat notas f n (Or.inr hstep)).1
        exact le_trans h1 (ih (pg + 1) f n F N h)
      · unfold buscar_loop at h; rw [hstep] at h; simp at h
  · intro hpos fuel
    induction fuel with
    | zero => intro pg fat notas F N h; simp [buscar_loop] at h
    | succ fuel ih =>
      intro pg fat notas F N h
      rcases hstep : buscar_passo portal ano mes pg fat notas with ⟨f, n⟩ | ⟨f, n⟩ | m
      · unfold buscar_loop at h; rw [hstep] at h
        obtain ⟨hF, hN⟩ : f = F ∧ n = N := by simpa using h
        exact hF ▸ (passo_monotono portal ano mes pg fat notas f n (Or.inl hstep)).2 hpos
      · unfold buscar_loop at h; rw [hstep] at h
        have h1 := (passo_monotono portal ano mes pg fat notas f n (Or.inr hstep)).2 hpos
        exact le_trans h1 (ih (pg + 1) f n F N h)
      · unfold buscar_loop at h; rw [hstep] at h; simp at h
  · intro fuel pg fat notas
    obtain ⟨k, hk⟩ := buscar_paginas_range portal ano mes fuel pg fat notas
    rw [hk]
    exact List.nodup_range' pg k 1 Nat.one_pos
  · intro f n fuel pg fat notas h
    constructor
    · simp [buscar_loop, h]
    · simp [buscar_paginas, h]

theorem invariantes_agregacao_witness :
    (0 : Nat) ≤ 0 ∧ (0 : ℚ) ≤ 0 :=
  ⟨(invariantes_agregacao portal_404 "2025" none).1 1 1 0 0 0 0 rfl,
   (invariantes_agregacao portal_404 "2025" none).2.1
      (by
        intro q s p hqp
        obtain ⟨hs, hp⟩ : (404 : Nat) = s ∧ (⟨none, none⟩ : Pagina) = p := by
          simpa [portal_404] using hqp
        rw [show p = (⟨none, none⟩ : Pagina) from hp.symm]
        norm_num [processar_pagina])
      1 1 0 0 0 0 rfl⟩

/-- The request environment used when login fails before any page is fetched:
certificate decodes, but serialisation of the key material raises (modelling
a bundle whose `private_key` is `None`, so `private_bytes` fails on line 61
after the temp directory and both files were created by `open`). -/
def ambiente_vazamento : Ambiente :=
  ⟨⟨true, false, "AttributeError: NoneType object has no attribute private_bytes", .ssl⟩,
   portal_404⟩

/-- C5 (code bug): the temp-file writes (lines 51–75) run before the `try` of
line 77, so an exception there propagates with the material on disk; the
endpoint's handler skips cleanup because `session` is still `None`.  At this
concrete failing input the request returns a 500 while the temporary
certificate material is still present (`true` in the second component),
contradicting delete-on-every-exit-path. -/
theorem vazamento_arquivos_temporarios :
    obter_faturamento_certificado ambiente_vazamento 1 requisicao_basica =
      some (.error (500,
        "Erro: AttributeError: NoneType object has no attribute private_bytes"), true) := by
  rfl

/-- C7: the profile tax identifier is reformatted to `NN.NNN.NNN/NNNN-NN` iff
the captured digit run has exactly 14 digits (`"12345678901234"` becomes
`"12.345.678/9012-34"`); any other length leaves it unset without error, and
an unset identifier surfaces in the final result as `"Não identificado"`. -/
theorem cnpj_14_digitos (texto : String) (ds : List Char)
    (h : buscar_cnpj texto.data = some ds) :
    (extrair_cnpj (some texto) =
      if ds.length = 14 then some (formatar_cnpj ds) else none) ∧
    extrair_cnpj (some "CNPJ: 12345678901234") = some "12.345.678/9012-34" ∧
    (∀ env fuel req mes_filtro r,
      validar_mes req.mes = .ok mes_filtro →
      fazer_login_certificado env.login = (.ok none, true) →
      buscar_notas env.portal req.ano mes_filtro fuel = some (.ok r) →
      obter_faturamento_certificado env fuel req =
        some (.ok { CNPJ := "Não identificado",
                    Faturamento := roundPy2 r.1,
                    Notas_Encontradas := r.2,
                    Periodo := rotulo_periodo mes_filtro req.ano,
                    Mes := rotulo_mes mes_filtro }, false)) := by
  refine ⟨by simp [extrair_cnpj, h], by decide, ?_⟩
  intro env fuel req mes_filtro r hval hlog hbusca
  simp [obter_faturamento_certificado, hval, hlog, hbusca, cnpj_ou_padrao]

theorem cnpj_14_digitos_witness :
    extrair_cnpj (some "CNPJ: 123") = none := by
  have h := (cnpj_14_digitos "CNPJ: 123" ['1', '2', '3'] (by decide)).1
  simpa using h

/-- A login environment whose certificate request raises `SSLError`. -/
def ambiente_ssl : Ambiente := ⟨⟨true, true, "", .ssl⟩, portal_404⟩

/-- C8: every exception raised inside the `try` of the login request — the
TLS handshake failure and any other `requests` exception (timeouts,
connection errors) — surfaces to the caller as a 401 whose detail carries the
uniform authentication-failure phrase, never as the generic 500; when the
underlying message does not itself contain the phrase, the detail is exactly
the uniform message. -/
theorem excecao_login_vira_401 (env : Ambiente) (req : Requisicao) (fuel : Nat)
    (mes_filtro : Option String)
    (hval : validar_mes req.mes = .ok mes_filtro)
    (hdec : env.login.decode_ok = true) (hesc : env.login.escrita_ok = true)
    (hresp : env.login.resposta = .ssl ∨ ∃ m, env.login.resposta = .excecao m) :
    ∃ d, obter_faturamento_certificado env fuel req = some (.error (401, d), false) ∧
      pyIn "Autenticação não realizada" d = true ∧
      (∀ m, env.login.resposta = .excecao m →
        pyIn "Autenticação não realizada" m = false → d = mensagem_autenticacao) := by
  have hphrase : pyIn "Autenticação não realizada" mensagem_autenticacao = true := by decide
  rcases hresp with hssl | ⟨m, hexc⟩
  · have hlog : fazer_login_certificado env.login = (.error mensagem_autenticacao, false) := by
      simp [fazer_login_certificado, hdec, hesc, hssl]
    refine ⟨mensagem_autenticacao, ?_, hphrase, ?_⟩
    · simp [obter_faturamento_certificado, hval, hlog, tratar_erro, hphrase]
    · intro m hm hf
      simp [hssl] at hm
  · by_cases hin : pyIn "Autenticação não realizada" m = true
    · have hlog : fazer_login_certificado env.login = (.error m, false) := by
        simp [fazer_login_certificado, hdec, hesc, hexc, hin]
      refine ⟨m, ?_, hin, ?_⟩
      · simp [obter_faturamento_certificado, hval, hlog, tratar_erro, hin]
      · intro m2 hm2 hf
        rw [hexc] at hm2
        obtain rfl : m = m2 := by simpa using hm2
        exact absurd hin (by simp [hf])
    · have hin2 : pyIn "Autenticação não realizada" m = false := by
        simpa using hin
      have hlog : fazer_login_certificado env.login = (.error mensagem_autenticacao, false) := by
        simp [fazer_login_certificado, hdec, hesc, hexc, hin2]
      refine ⟨mensagem_autenticacao, ?_, hphrase, fun m2 hm2 hf => rfl⟩
      simp [obter_faturamento_certificado, hval, hlog, tratar_erro, hphrase]

theorem excecao_login_vira_401_witness :
    ∃ d, obter_faturamento_certificado ambiente_ssl 1 requisicao_basica =
        some (.error (401, d), false) ∧
      pyIn "Autenticação não realizada" d = true ∧
      (∀ m, ambiente_ssl.login.resposta = .excecao m →
        pyIn "Autenticação não realizada" m = false → d = mensagem_autenticacao) :=
  excecao_login_vira_401 ambiente_ssl requisicao_basica 1 none (by rfl) (by rfl) (by rfl)
    (Or.inl (by rfl))

/-- C10: when the month field parses as an integer outside `[1, 12]`, the
request is rejected before any authentication work — the result does not
depend on the login or portal environment at all — but the
`HTTPException(400, "Mês inválido")` is swallowed by the endpoint's generic
handler and resurfaces as a 500 whose detail is `"Erro: 400: Mês inválido"`,
not as a 400. -/
theorem mes_invalido_vira_500 (env : Ambiente) (fuel : Nat) (req : Requisicao)
    (s : String) (n : Int)
    (hm : req.mes = some s) (hn : pyInt s = some n) (hr : n < 1 ∨ 12 < n) :
    obter_faturamento_certificado env fuel req =
      some (.error (500, "Erro: 400: Mês inválido"), false) := by
  have hs : s ≠ "" := by
    intro he
    rw [he, show pyInt "" = (none : Option Int) from by decide] at hn
    simp at hn
  have hval : validar_mes req.mes = .error "400: Mês inválido" := by
    rw [hm]
    simp [validar_mes, hs, hn, hr]
  have htrat : tratar_erro "400: Mês inválido" = (500, "Erro: 400: Mês inválido") := by
    decide
  simp [obter_faturamento_certificado, hval, htrat]

theorem mes_invalido_vira_500_witness :
    obter_faturamento_certificado ambiente_ssl 0 ⟨"cert", "senha", "2025", some "13"⟩ =
      some (.error (500, "Erro: 400: Mês inválido"), false) :=
  mes_invalido_vira_500 ambiente_ssl 0 ⟨"cert", "senha", "2025", some "13"⟩ "13" 13
    rfl (by decide) (Or.inr (by norm_num))

end ApiCertificado
